import Mathlib

set_option maxHeartbeats 1000000

/-
Shallow embedding of two source files of the provider-aws repository:

  pkg/controller/cache/claim.go
    ConfigureReplicationGroup, resolveAWSClassInstanceValues,
    latestSupportedPatchVersion

  pkg/controller/cognitoidentityprovider/userpoolclient/zz_conversions.go
    GenerateDescribeUserPoolClientInput, GenerateUserPoolClient,
    GenerateCreateUserPoolClientInput, GenerateUpdateUserPoolClientInput,
    GenerateDeleteUserPoolClientInput, IsNotFound

Go pointers become Option values; a Go nil-pointer dereference (a panic) is
modelled by the embedded function returning none.  Go errors of the cache
configurator are modelled by an explicit error datatype whose wrap
constructor mirrors errors.Wrap (which passes nil through unchanged).
-/

/- ===================== pkg/controller/cache/claim.go ===================== -/

/-- Go aws.StringValue: dereference a possibly-nil string pointer, yielding ""
for nil. -/
def StringValue : Option String → String
  | none => ""
  | some s => s

/-- Modelled from the spec: the Supported-Version Table
(v1beta1.LatestSupportedPatchVersion together with the
v1beta1.UnsupportedVersion sentinel, both declared outside src/) maps a minor
version to the latest known patch version; looking up a minor the table does
not support yields the designated unsupported sentinel value (a Go map lookup
returns the zero value, which is the sentinel, for a missing key). -/
structure SupportedVersionTable where
  lookup : String → String
  unsupported : String

/-- Errors produced by the cache claim configurator: the three wrong-kind
errors of ConfigureReplicationGroup, the two version-resolution errors, and a
wrapping constructor mirroring errors.Wrap context messages. -/
inductive CacheErr where
  | wrongClaimKind (name : String)
  | wrongClassKind (name : String)
  | wrongManagedKind (name : String)
  | unsupportedVersion (minor : String)
  | versionConflict (classVersion claimVersion : String)
  | wrap (ctx : String) (err : CacheErr)
  deriving DecidableEq

/-- Go errors.Wrap: wrapping a nil error yields nil, otherwise it adds a
context message around the error. -/
def wrapErr (ctx : String) : Option CacheErr → Option CacheErr
  | none => none
  | some e => some (.wrap ctx e)

/-- Whether an error is one of the three wrong-kind errors of
ConfigureReplicationGroup. -/
def CacheErr.isWrongKind : CacheErr → Bool
  | .wrongClaimKind _ => true
  | .wrongClassKind _ => true
  | .wrongManagedKind _ => true
  | _ => false

/-- Whether an optional error is present and a wrong-kind error. -/
def wrongKindOf : Option CacheErr → Bool
  | none => false
  | some e => e.isWrongKind

/-- v1beta1.ReplicationGroupParameters, as consumed by the configurator: the
EngineVersion pointer field it reads and writes, plus one opaque field
standing for all the remaining provider parameters, which the source only
ever copies verbatim. -/
structure ReplicationGroupParameters where
  engineVersion : Option String
  otherParameters : String
  deriving DecidableEq

/-- latestSupportedPatchVersion from claim.go: look the minor version up in
the supported-version table; the sentinel means unsupported and is an error,
any other value is returned as a fresh pointer. -/
def latestSupportedPatchVersion (t : SupportedVersionTable) (minorVersion : String) :
    Option String × Option CacheErr :=
  let p := t.lookup minorVersion
  if p = t.unsupported then (none, some (.unsupportedVersion minorVersion))
  else (some p, none)

/-- resolveAWSClassInstanceValues from claim.go: the four-branch switch over
the class-supplied version (spec.engineVersion, read through StringValue) and
the claim-supplied minor version.  The Go function mutates spec.EngineVersion
in place and returns an error wrapped with "cannot resolve class claim
values"; here it returns the updated parameters plus the optional error. -/
def resolveAWSClassInstanceValues (t : SupportedVersionTable)
    (spec : ReplicationGroupParameters) (claimVersion : String) :
    ReplicationGroupParameters × Option CacheErr :=
  if StringValue spec.engineVersion = "" ∧ claimVersion = "" then
    (spec, none)
  else if StringValue spec.engineVersion = "" ∧ ¬claimVersion = "" then
    match latestSupportedPatchVersion t claimVersion with
    | (v, e) => ({ spec with engineVersion := v },
                 wrapErr "cannot resolve class claim values" e)
  else if ¬StringValue spec.engineVersion = "" ∧ claimVersion = "" then
    (spec, none)
  else if (claimVersion ++ ".").isPrefixOf (StringValue spec.engineVersion) = false then
    (spec, wrapErr "cannot resolve class claim values"
      (some (.versionConflict (StringValue spec.engineVersion) claimVersion)))
  else
    (spec, none)

/-- cachev1alpha1.RedisClusterSpec: the claim-requested (minor) engine
version, a plain string. -/
structure RedisClusterSpec where
  engineVersion : String
  deriving DecidableEq

/-- cachev1alpha1.RedisCluster: the resource claim, with its name, stable UID
and spec. -/
structure RedisCluster where
  name : String
  uid : String
  spec : RedisClusterSpec
  deriving DecidableEq

/-- v1beta1.ReplicationGroupClassSpecTemplate: the parts the configurator
reads. -/
structure ClassSpecTemplate where
  writeConnectionSecretsToNamespace : String
  reclaimPolicy : String
  forProvider : ReplicationGroupParameters
  deriving DecidableEq

/-- v1beta1.ReplicationGroupClass: the resource class. -/
structure ReplicationGroupClass where
  name : String
  specTemplate : ClassSpecTemplate
  deriving DecidableEq

/-- runtimev1alpha1.SecretReference: ns models the Namespace field. -/
structure SecretReference where
  ns : String
  name : String
  deriving DecidableEq

/-- v1beta1.ReplicationGroupSpec: the embedded ResourceSpec fields the
configurator writes (reclaim policy, connection secret reference) plus the
provider parameters.  Reclaim policies are strings in the source
("Retain", "Delete"). -/
structure ReplicationGroupSpec where
  reclaimPolicy : String
  writeConnectionSecretToReference : Option SecretReference
  forProvider : ReplicationGroupParameters
  deriving DecidableEq

/-- v1beta1.ReplicationGroup: the managed resource. -/
structure ReplicationGroup where
  name : String
  spec : ReplicationGroupSpec
  deriving DecidableEq

/-- runtimev1alpha1.ReclaimRetain. -/
def ReclaimRetain : String := "Retain"

/-- A resource.Claim value: either the expected concrete RedisCluster or some
other claim kind (only its name is observable through the interface). -/
inductive ResourceClaim where
  | redisCluster (rc : RedisCluster)
  | other (name : String)
  deriving DecidableEq

def ResourceClaim.getName : ResourceClaim → String
  | .redisCluster rc => rc.name
  | .other n => n

def ResourceClaim.isRedisCluster : ResourceClaim → Bool
  | .redisCluster _ => true
  | .other _ => false

/-- A resource.Class value: either the expected ReplicationGroupClass or some
other class kind. -/
inductive ResourceClass where
  | replicationGroupClass (rgc : ReplicationGroupClass)
  | other (name : String)
  deriving DecidableEq

def ResourceClass.getName : ResourceClass → String
  | .replicationGroupClass rgc => rgc.name
  | .other n => n

def ResourceClass.isReplicationGroupClass : ResourceClass → Bool
  | .replicationGroupClass _ => true
  | .other _ => false

/-- A resource.Managed value: either the expected ReplicationGroup or some
other managed kind. -/
inductive ResourceManaged where
  | replicationGroup (rg : ReplicationGroup)
  | other (name : String)
  deriving DecidableEq

def ResourceManaged.getName : ResourceManaged → String
  | .replicationGroup rg => rg.name
  | .other n => n

def ResourceManaged.isReplicationGroup : ResourceManaged → Bool
  | .replicationGroup _ => true
  | .other _ => false

/-- ConfigureReplicationGroup from claim.go.  The Go function mutates the
supplied managed resource; here it returns the (possibly updated) managed
resource together with the optional error.  It type-checks the claim, then
the class, then the managed resource; builds a spec from the class template
with the interim ReclaimRetain default; resolves the engine version
(propagating its error wrapped with "cannot resolve AWS class instance
values" and leaving the managed resource untouched); then fills in the
connection secret reference (class secrets namespace, claim UID as name),
overwrites the reclaim policy with the class template's declared policy, and
only then assigns the completed spec to the managed resource. -/
def ConfigureReplicationGroup (t : SupportedVersionTable)
    (cm : ResourceClaim) (cs : ResourceClass) (mg : ResourceManaged) :
    ResourceManaged × Option CacheErr :=
  match cm with
  | .other _ => (mg, some (.wrongClaimKind cm.getName))
  | .redisCluster rc =>
    match cs with
    | .other _ => (mg, some (.wrongClassKind cs.getName))
    | .replicationGroupClass rgc =>
      match mg with
      | .other _ => (mg, some (.wrongManagedKind mg.getName))
      | .replicationGroup rg =>
        let spec0 : ReplicationGroupSpec :=
          { reclaimPolicy := ReclaimRetain
            writeConnectionSecretToReference := none
            forProvider := rgc.specTemplate.forProvider }
        match resolveAWSClassInstanceValues t spec0.forProvider rc.spec.engineVersion with
        | (_, some e) => (mg, some (.wrap "cannot resolve AWS class instance values" e))
        | (fp, none) =>
          (.replicationGroup { rg with spec :=
            { spec0 with
              forProvider := fp
              writeConnectionSecretToReference := some
                { ns := rgc.specTemplate.writeConnectionSecretsToNamespace
                  name := rc.uid }
              reclaimPolicy := rgc.specTemplate.reclaimPolicy } }, none)

/- Sample values used by the concrete witness theorems. -/

/-- A sample supported-version table: minor "6.2" has latest patch "6.2.6",
every other minor is unsupported (the "" sentinel, as in the Go map whose
zero value is the sentinel). -/
def sampleTable : SupportedVersionTable :=
  { lookup := fun m => if m = "6.2" then "6.2.6" else ""
    unsupported := "" }

def sampleParamsNoVersion : ReplicationGroupParameters :=
  { engineVersion := none, otherParameters := "cache.m4.large" }

def sampleParamsV624 : ReplicationGroupParameters :=
  { engineVersion := some "6.2.4", otherParameters := "cache.m4.large" }

/-- C1: For every pair (classVersion, claimMinorVersion), the version
resolver conforms to the four-branch decision table evaluated in order with
first match winning: both empty yields an empty result with no error;
classVersion empty and claimMinorVersion non-empty yields the table's latest
supported patch for that minor, or an UnsupportedVersion error when the table
yields the unsupported sentinel; classVersion non-empty and claimMinorVersion
empty yields classVersion unchanged; both non-empty yields classVersion
unchanged when classVersion begins with claimMinorVersion followed by ".",
and a VersionConflict error otherwise.  (Errors carry the source's
"cannot resolve class claim values" context wrap.) -/
theorem C1_version_resolver_decision_table (t : SupportedVersionTable)
    (spec : ReplicationGroupParameters) (claimVer : String) :
    (StringValue spec.engineVersion = "" → claimVer = "" →
      resolveAWSClassInstanceValues t spec claimVer = (spec, none))
    ∧ (StringValue spec.engineVersion = "" → ¬claimVer = "" →
        (t.lookup claimVer = t.unsupported →
          resolveAWSClassInstanceValues t spec claimVer =
            ({ spec with engineVersion := none },
             some (.wrap "cannot resolve class claim values"
               (.unsupportedVersion claimVer))))
        ∧ (¬t.lookup claimVer = t.unsupported →
          resolveAWSClassInstanceValues t spec claimVer =
            ({ spec with engineVersion := some (t.lookup claimVer) }, none)))
    ∧ (¬StringValue spec.engineVersion = "" → claimVer = "" →
      resolveAWSClassInstanceValues t spec claimVer = (spec, none))
    ∧ (¬StringValue spec.engineVersion = "" → ¬claimVer = "" →
        ((claimVer ++ ".").isPrefixOf (StringValue spec.engineVersion) = false →
          resolveAWSClassInstanceValues t spec claimVer =
            (spec, some (.wrap "cannot resolve class claim values"
              (.versionConflict (StringValue spec.engineVersion) claimVer))))
        ∧ ((claimVer ++ ".").isPrefixOf (StringValue spec.engineVersion) = true →
          resolveAWSClassInstanceValues t spec claimVer = (spec, none))) := by
  refine ⟨?_, fun h1 h2 => ⟨?_, ?_⟩, ?_, fun h1 h2 => ⟨?_, ?_⟩⟩
  · intro h1 h2
    simp [resolveAWSClassInstanceValues, h1, h2]
  · intro htab
    simp [resolveAWSClassInstanceValues, latestSupportedPatchVersion, wrapErr, h1, h2, htab]
  · intro htab
    simp [resolveAWSClassInstanceValues, latestSupportedPatchVersion, wrapErr, h1, h2, htab]
  · intro h1 h2
    simp [resolveAWSClassInstanceValues, h1, h2]
  · intro hpre
    simp [resolveAWSClassInstanceValues, wrapErr, h1, h2, hpre]
  · intro hpre
    simp [resolveAWSClassInstanceValues, wrapErr, h1, h2, hpre]

/-- Witness for C1: with the sample table, a claim minor "6.2" and a class
with no version resolve to the table's latest patch "6.2.6". -/
theorem C1_version_resolver_decision_table_witness :
    resolveAWSClassInstanceValues sampleTable sampleParamsNoVersion "6.2" =
      ({ sampleParamsNoVersion with engineVersion := some "6.2.6" }, none) := by
  have h := (C1_version_resolver_decision_table sampleTable sampleParamsNoVersion "6.2").2.1
    (by decide) (by decide)
  exact (h.2 (by decide)).trans (by decide)

/- Sample objects for the configurator claims. -/

def sampleRedisCluster : RedisCluster :=
  { name := "redis-claim", uid := "uid-1234", spec := { engineVersion := "" } }

def sampleClassDelete : ReplicationGroupClass :=
  { name := "class-delete"
    specTemplate :=
      { writeConnectionSecretsToNamespace := "crossplane-system"
        reclaimPolicy := "Delete"
        forProvider := sampleParamsNoVersion } }

def sampleRG : ReplicationGroup :=
  { name := "rg-1"
    spec :=
      { reclaimPolicy := ""
        writeConnectionSecretToReference := none
        forProvider := { engineVersion := none, otherParameters := "" } } }

/-- The reclaim policy of a managed resource, when it is a ReplicationGroup. -/
def ResourceManaged.reclaimPolicyOf : ResourceManaged → Option String
  | .replicationGroup rg => some rg.spec.reclaimPolicy
  | .other _ => none

/-- Counterexample to C5: a class template declaring the "Delete" reclaim
policy.  ConfigureReplicationGroup succeeds, yet the managed resource's
reclaim policy is already "Delete", not the interim safe default "Retain":
the overwrite with the class template's declared policy happens inside
ConfigureReplicationGroup itself. -/
theorem C5_counterexample :
    ((ConfigureReplicationGroup sampleTable (.redisCluster sampleRedisCluster)
        (.replicationGroupClass sampleClassDelete) (.replicationGroup sampleRG)).2 = none)
    ∧ ((ConfigureReplicationGroup sampleTable (.redisCluster sampleRedisCluster)
        (.replicationGroupClass sampleClassDelete) (.replicationGroup sampleRG)).1.reclaimPolicyOf
        = some "Delete")
    ∧ ¬"Delete" = ReclaimRetain := by
  decide

/-- C5 (amended): After ConfigureReplicationGroup returns successfully, the
managed resource's spec carries the class template's ForProvider parameters
as updated by the version resolver, a connection secret reference derived
from the class template's secrets namespace and the claim's UID, and a
reclaim policy equal to the class template's declared reclaim policy:
ConfigureReplicationGroup itself overwrites the interim "Retain" default
before assigning the spec, rather than leaving that overwrite to the
subsequent reclaim-policy configurator step. -/
theorem C5_corrected_configure_success (t : SupportedVersionTable)
    (rc : RedisCluster) (rgc : ReplicationGroupClass) (rg : ReplicationGroup)
    (mg : ResourceManaged)
    (h : ConfigureReplicationGroup t (.redisCluster rc) (.replicationGroupClass rgc)
      (.replicationGroup rg) = (mg, none)) :
    mg = .replicationGroup { rg with spec :=
      { reclaimPolicy := rgc.specTemplate.reclaimPolicy
        writeConnectionSecretToReference := some
          { ns := rgc.specTemplate.writeConnectionSecretsToNamespace, name := rc.uid }
        forProvider := (resolveAWSClassInstanceValues t
          rgc.specTemplate.forProvider rc.spec.engineVersion).1 } } := by
  rcases hres : resolveAWSClassInstanceValues t rgc.specTemplate.forProvider
    rc.spec.engineVersion with ⟨fp, e⟩
  simp only [ConfigureReplicationGroup, hres] at h
  cases e with
  | some e0 => simp at h
  | none =>
    simp only [Prod.mk.injEq, and_true] at h
    exact h.symm

/-- Witness for the amended C5 at the sample inputs. -/
theorem C5_corrected_configure_success_witness :
    (ConfigureReplicationGroup sampleTable (.redisCluster sampleRedisCluster)
      (.replicationGroupClass sampleClassDelete) (.replicationGroup sampleRG)).1 =
    .replicationGroup { sampleRG with spec :=
      { reclaimPolicy := "Delete"
        writeConnectionSecretToReference := some
          { ns := "crossplane-system", name := "uid-1234" }
        forProvider := sampleParamsNoVersion } } := by
  have h := C5_corrected_configure_success sampleTable sampleRedisCluster
    sampleClassDelete sampleRG
    ((ConfigureReplicationGroup sampleTable (.redisCluster sampleRedisCluster)
      (.replicationGroupClass sampleClassDelete) (.replicationGroup sampleRG)).1)
    (by decide)
  exact h.trans (by decide)

/-- C6: ConfigureReplicationGroup returns a wrong-kind error if and only if
at least one of its three object arguments is not of the expected concrete
kind, checking claim first, then class, then managed resource; when all
three kinds are correct no kind-mismatch error is produced (any error is a
version-resolution error instead). -/
theorem C6_wrong_kind_checks (t : SupportedVersionTable) (cm : ResourceClaim)
    (cs : ResourceClass) (mg : ResourceManaged) :
    (wrongKindOf (ConfigureReplicationGroup t cm cs mg).2 = true ↔
      (cm.isRedisCluster = false ∨ cs.isReplicationGroupClass = false ∨
       mg.isReplicationGroup = false))
    ∧ (cm.isRedisCluster = false →
        (ConfigureReplicationGroup t cm cs mg).2 = some (.wrongClaimKind cm.getName))
    ∧ (cm.isRedisCluster = true → cs.isReplicationGroupClass = false →
        (ConfigureReplicationGroup t cm cs mg).2 = some (.wrongClassKind cs.getName))
    ∧ (cm.isRedisCluster = true → cs.isReplicationGroupClass = true →
        mg.isReplicationGroup = false →
        (ConfigureReplicationGroup t cm cs mg).2 = some (.wrongManagedKind mg.getName)) := by
  cases cm with
  | other n =>
    simp [ConfigureReplicationGroup, wrongKindOf, CacheErr.isWrongKind,
      ResourceClaim.isRedisCluster, ResourceClaim.getName]
  | redisCluster rc =>
    cases cs with
    | other n =>
      simp [ConfigureReplicationGroup, wrongKindOf, CacheErr.isWrongKind,
        ResourceClaim.isRedisCluster, ResourceClass.isReplicationGroupClass,
        ResourceClass.getName]
    | replicationGroupClass rgc =>
      cases mg with
      | other n =>
        simp [ConfigureReplicationGroup, wrongKindOf, CacheErr.isWrongKind,
          ResourceClaim.isRedisCluster, ResourceClass.isReplicationGroupClass,
          ResourceManaged.isReplicationGroup, ResourceManaged.getName]
      | replicationGroup rg =>
        rcases hres : resolveAWSClassInstanceValues t rgc.specTemplate.forProvider
          rc.spec.engineVersion with ⟨fp, e⟩
        cases e <;>
          simp [ConfigureReplicationGroup, hres, wrongKindOf, CacheErr.isWrongKind,
            ResourceClaim.isRedisCluster, ResourceClass.isReplicationGroupClass,
            ResourceManaged.isReplicationGroup]

/-- Witness for C6: a claim of the wrong kind makes ConfigureReplicationGroup
fail with the claim wrong-kind error. -/
theorem C6_wrong_kind_checks_witness :
    (ConfigureReplicationGroup sampleTable (.other "wrong-claim")
      (.replicationGroupClass sampleClassDelete) (.replicationGroup sampleRG)).2 =
      some (.wrongClaimKind "wrong-claim") :=
  (C6_wrong_kind_checks sampleTable (.other "wrong-claim")
    (.replicationGroupClass sampleClassDelete) (.replicationGroup sampleRG)).2.1 (by decide)

/-- C7: Whenever ConfigureReplicationGroup returns a non-nil error, the
managed-resource output object is left entirely unchanged (the spec is only
assigned after every step has succeeded), and the error is either one of the
wrong-kind errors or the version-resolution error wrapped with the
"cannot resolve AWS class instance values" step context. -/
theorem C7_no_partial_output_on_error (t : SupportedVersionTable)
    (cm : ResourceClaim) (cs : ResourceClass) (mg : ResourceManaged) (e : CacheErr)
    (h : (ConfigureReplicationGroup t cm cs mg).2 = some e) :
    (ConfigureReplicationGroup t cm cs mg).1 = mg
    ∧ (e.isWrongKind = true ∨
       ∃ e0, e = .wrap "cannot resolve AWS class instance values" e0) := by
  cases cm with
  | other n =>
    replace h := Option.some.inj h
    subst h
    exact ⟨rfl, Or.inl rfl⟩
  | redisCluster rc =>
    cases cs with
    | other n =>
      replace h := Option.some.inj h
      subst h
      exact ⟨rfl, Or.inl rfl⟩
    | replicationGroupClass rgc =>
      cases mg with
      | other n =>
        replace h := Option.some.inj h
        subst h
        exact ⟨rfl, Or.inl rfl⟩
      | replicationGroup rg =>
        rcases hres : resolveAWSClassInstanceValues t rgc.specTemplate.forProvider
          rc.spec.engineVersion with ⟨fp, e0⟩
        cases e0 with
        | none => simp_all [ConfigureReplicationGroup, hres]
        | some e1 =>
          have h1 : ConfigureReplicationGroup t (.redisCluster rc)
              (.replicationGroupClass rgc) (.replicationGroup rg) =
              (.replicationGroup rg,
               some (.wrap "cannot resolve AWS class instance values" e1)) := by
            simp only [ConfigureReplicationGroup, hres]
          rw [h1] at h ⊢
          replace h := Option.some.inj h
          subst h
          exact ⟨rfl, Or.inr ⟨e1, rfl⟩⟩

/-- Witness for C7: a wrong-kind failure leaves the sample managed resource
untouched. -/
theorem C7_no_partial_output_on_error_witness :
    (ConfigureReplicationGroup sampleTable (.other "wrong-claim")
      (.replicationGroupClass sampleClassDelete) (.replicationGroup sampleRG)).1 =
      ResourceManaged.replicationGroup sampleRG
    ∧ ((CacheErr.wrongClaimKind "wrong-claim").isWrongKind = true ∨
       ∃ e0, CacheErr.wrongClaimKind "wrong-claim" =
         .wrap "cannot resolve AWS class instance values" e0) :=
  C7_no_partial_output_on_error sampleTable (.other "wrong-claim")
    (.replicationGroupClass sampleClassDelete) (.replicationGroup sampleRG)
    (.wrongClaimKind "wrong-claim") (by decide)

/- ===== pkg/controller/cognitoidentityprovider/userpoolclient/zz_conversions.go ===== -/

/-
Go []*string slice fields are modelled as Option (List (Option String)):
the outer Option is the nil-ness of the slice itself, the inner Options are
the element pointers.  The generated copy loops dereference every element
pointer without a guard, so a nil element is a panic; the embedded generate
functions therefore return Option, with none standing for the panic.
Go *int64 fields are modelled as Option Int, *time.Time (and the metav1.Time
wrapper, which preserves the instant) as Option Int timestamps.
-/

/-- svcapitypes.AnalyticsConfigurationType. -/
structure AnalyticsConfigurationType where
  applicationARN : Option String
  applicationID : Option String
  externalID : Option String
  roleARN : Option String
  userDataShared : Option Bool
  deriving DecidableEq

/-- svcsdk.AnalyticsConfigurationType. -/
structure SDKAnalyticsConfigurationType where
  applicationArn : Option String
  applicationId : Option String
  externalId : Option String
  roleArn : Option String
  userDataShared : Option Bool
  deriving DecidableEq

/-- svcapitypes.TokenValidityUnitsType. -/
structure TokenValidityUnitsType where
  accessToken : Option String
  idToken : Option String
  refreshToken : Option String
  deriving DecidableEq

/-- svcsdk.TokenValidityUnitsType. -/
structure SDKTokenValidityUnitsType where
  accessToken : Option String
  idToken : Option String
  refreshToken : Option String
  deriving DecidableEq

/-- svcapitypes.UserPoolClientParameters: every Spec.ForProvider field the
generated conversions read or write. -/
structure UserPoolClientParameters where
  accessTokenValidity : Option Int
  allowedOAuthFlows : Option (List (Option String))
  allowedOAuthFlowsUserPoolClient : Option Bool
  allowedOAuthScopes : Option (List (Option String))
  analyticsConfiguration : Option AnalyticsConfigurationType
  callbackURLs : Option (List (Option String))
  clientName : Option String
  defaultRedirectURI : Option String
  enableTokenRevocation : Option Bool
  explicitAuthFlows : Option (List (Option String))
  generateSecret : Option Bool
  idTokenValidity : Option Int
  logoutURLs : Option (List (Option String))
  preventUserExistenceErrors : Option String
  readAttributes : Option (List (Option String))
  refreshTokenValidity : Option Int
  supportedIdentityProviders : Option (List (Option String))
  tokenValidityUnits : Option TokenValidityUnitsType
  writeAttributes : Option (List (Option String))
  deriving DecidableEq

/-- svcapitypes.UserPoolClientObservation: the server-assigned fields kept in
Status.AtProvider. -/
structure UserPoolClientObservation where
  clientID : Option String
  clientSecret : Option String
  creationDate : Option Int
  lastModifiedDate : Option Int
  userPoolID : Option String
  deriving DecidableEq

/-- svcapitypes.UserPoolClientSpec. -/
structure UserPoolClientSpec where
  forProvider : UserPoolClientParameters
  deriving DecidableEq

/-- svcapitypes.UserPoolClientStatus. -/
structure UserPoolClientStatus where
  atProvider : UserPoolClientObservation
  deriving DecidableEq

/-- svcapitypes.UserPoolClient: the managed resource record. -/
structure UserPoolClient where
  spec : UserPoolClientSpec
  status : UserPoolClientStatus
  deriving DecidableEq

/-- svcsdk.UserPoolClientType: the member of the describe response. -/
structure UserPoolClientType where
  accessTokenValidity : Option Int
  allowedOAuthFlows : Option (List (Option String))
  allowedOAuthFlowsUserPoolClient : Option Bool
  allowedOAuthScopes : Option (List (Option String))
  analyticsConfiguration : Option SDKAnalyticsConfigurationType
  callbackURLs : Option (List (Option String))
  clientId : Option String
  clientName : Option String
  clientSecret : Option String
  creationDate : Option Int
  defaultRedirectURI : Option String
  enableTokenRevocation : Option Bool
  explicitAuthFlows : Option (List (Option String))
  idTokenValidity : Option Int
  lastModifiedDate : Option Int
  logoutURLs : Option (List (Option String))
  preventUserExistenceErrors : Option String
  readAttributes : Option (List (Option String))
  refreshTokenValidity : Option Int
  supportedIdentityProviders : Option (List (Option String))
  tokenValidityUnits : Option SDKTokenValidityUnitsType
  userPoolId : Option String
  writeAttributes : Option (List (Option String))
  deriving DecidableEq

/-- svcsdk.DescribeUserPoolClientOutput: UserPoolClient is a pointer in Go,
hence Option here. -/
structure DescribeUserPoolClientOutput where
  userPoolClient : Option UserPoolClientType
  deriving DecidableEq

/-- svcsdk.DescribeUserPoolClientInput: the fields the generated code sets. -/
structure DescribeUserPoolClientInput where
  clientId : Option String
  userPoolId : Option String
  deriving DecidableEq

/-- svcsdk.DeleteUserPoolClientInput: the fields the generated code sets. -/
structure DeleteUserPoolClientInput where
  clientId : Option String
  userPoolId : Option String
  deriving DecidableEq

/-- svcsdk.CreateUserPoolClientInput: the fields the generated code sets. -/
structure CreateUserPoolClientInput where
  accessTokenValidity : Option Int
  allowedOAuthFlows : Option (List (Option String))
  allowedOAuthFlowsUserPoolClient : Option Bool
  allowedOAuthScopes : Option (List (Option String))
  analyticsConfiguration : Option SDKAnalyticsConfigurationType
  callbackURLs : Option (List (Option String))
  clientName : Option String
  defaultRedirectURI : Option String
  enableTokenRevocation : Option Bool
  explicitAuthFlows : Option (List (Option String))
  generateSecret : Option Bool
  idTokenValidity : Option Int
  logoutURLs : Option (List (Option String))
  preventUserExistenceErrors : Option String
  readAttributes : Option (List (Option String))
  refreshTokenValidity : Option Int
  supportedIdentityProviders : Option (List (Option String))
  tokenValidityUnits : Option SDKTokenValidityUnitsType
  writeAttributes : Option (List (Option String))
  deriving DecidableEq

/-- svcsdk.UpdateUserPoolClientInput: the fields the generated code sets
(the spec fields minus GenerateSecret, plus the ClientId and UserPoolId
identity fields taken from observed status). -/
structure UpdateUserPoolClientInput where
  accessTokenValidity : Option Int
  allowedOAuthFlows : Option (List (Option String))
  allowedOAuthFlowsUserPoolClient : Option Bool
  allowedOAuthScopes : Option (List (Option String))
  analyticsConfiguration : Option SDKAnalyticsConfigurationType
  callbackURLs : Option (List (Option String))
  clientId : Option String
  clientName : Option String
  defaultRedirectURI : Option String
  enableTokenRevocation : Option Bool
  explicitAuthFlows : Option (List (Option String))
  idTokenValidity : Option Int
  logoutURLs : Option (List (Option String))
  preventUserExistenceErrors : Option String
  readAttributes : Option (List (Option String))
  refreshTokenValidity : Option Int
  supportedIdentityProviders : Option (List (Option String))
  tokenValidityUnits : Option SDKTokenValidityUnitsType
  userPoolId : Option String
  writeAttributes : Option (List (Option String))
  deriving DecidableEq

/-- The generated element-copy loop over a Go []*string: each element pointer
is dereferenced without a guard (none element means a panic, modelled by the
whole copy yielding none) and re-boxed as a fresh pointer to an equal
string. -/
def copyStrSlice : List (Option String) → Option (List (Option String))
  | [] => some []
  | none :: _ => none
  | some s :: rest =>
    match copyStrSlice rest with
    | none => none
    | some r => some (some s :: r)

/-- The `if field != nil` guard around a slice copy: a nil slice is left as
nil (no copy, no panic); a non-nil slice is element-copied. -/
def copyOptSlice : Option (List (Option String)) → Option (Option (List (Option String)))
  | none => some none
  | some l =>
    match copyStrSlice l with
    | none => none
    | some r => some (some r)

/-- Whether every element pointer of a possibly-nil Go string slice is
non-nil (a nil slice has no elements, hence holds trivially). -/
def allSomeB : Option (List (Option String)) → Bool
  | none => true
  | some l => l.all fun x => x.isSome

/-- The AnalyticsConfiguration copy of GenerateUserPoolClient (SDK shape to
api shape).  In the source each field is copied under a nil guard into an
initially-nil field, which is exactly a verbatim field copy. -/
def analyticsConfigurationFromSDK (a : SDKAnalyticsConfigurationType) :
    AnalyticsConfigurationType :=
  { applicationARN := a.applicationArn
    applicationID := a.applicationId
    externalID := a.externalId
    roleARN := a.roleArn
    userDataShared := a.userDataShared }

/-- The AnalyticsConfiguration copy of the create/update input generators
(api shape to SDK shape); same verbatim field copy as the source's guarded
setters on an initially-empty struct. -/
def analyticsConfigurationToSDK (a : AnalyticsConfigurationType) :
    SDKAnalyticsConfigurationType :=
  { applicationArn := a.applicationARN
    applicationId := a.applicationID
    externalId := a.externalID
    roleArn := a.roleARN
    userDataShared := a.userDataShared }

/-- The TokenValidityUnits copy of GenerateUserPoolClient (SDK shape to api
shape). -/
def tokenValidityUnitsFromSDK (u : SDKTokenValidityUnitsType) :
    TokenValidityUnitsType :=
  { accessToken := u.accessToken
    idToken := u.idToken
    refreshToken := u.refreshToken }

/-- The TokenValidityUnits copy of the create/update input generators (api
shape to SDK shape). -/
def tokenValidityUnitsToSDK (u : TokenValidityUnitsType) :
    SDKTokenValidityUnitsType :=
  { accessToken := u.accessToken
    idToken := u.idToken
    refreshToken := u.refreshToken }

/-- GenerateDescribeUserPoolClientInput: builds the read request from the
observed identity fields Status.AtProvider.ClientID and UserPoolID only
(each copied under a nil guard into an initially-unset field). -/
def GenerateDescribeUserPoolClientInput (cr : UserPoolClient) :
    DescribeUserPoolClientInput :=
  { clientId := cr.status.atProvider.clientID
    userPoolId := cr.status.atProvider.userPoolID }

/-- GenerateDeleteUserPoolClientInput: builds the delete request from the
same observed identity fields. -/
def GenerateDeleteUserPoolClientInput (cr : UserPoolClient) :
    DeleteUserPoolClientInput :=
  { clientId := cr.status.atProvider.clientID
    userPoolId := cr.status.atProvider.userPoolID }

/-- GenerateUserPoolClient: converts a describe response into a fresh
UserPoolClient record.  The source first dereferences resp.UserPoolClient
unguarded (nil response member panics, modelled by none); user-settable
fields go to Spec.ForProvider, server-assigned fields (ClientId,
ClientSecret, CreationDate, LastModifiedDate, UserPoolId) go to
Status.AtProvider; an absent response field is written back as absent; the
eight string-slice fields are element-copied (a nil element panics).
GenerateSecret is never written and stays at its zero value nil. -/
def GenerateUserPoolClient (resp : DescribeUserPoolClientOutput) :
    Option UserPoolClient :=
  match resp.userPoolClient with
  | none => none
  | some u =>
    (copyOptSlice u.allowedOAuthFlows).bind fun f1 =>
    (copyOptSlice u.allowedOAuthScopes).bind fun f3 =>
    (copyOptSlice u.callbackURLs).bind fun f5 =>
    (copyOptSlice u.explicitAuthFlows).bind fun f12 =>
    (copyOptSlice u.logoutURLs).bind fun f15 =>
    (copyOptSlice u.readAttributes).bind fun f17 =>
    (copyOptSlice u.supportedIdentityProviders).bind fun f19 =>
    (copyOptSlice u.writeAttributes).bind fun f22 =>
    some
      { spec := { forProvider :=
          { accessTokenValidity := u.accessTokenValidity
            allowedOAuthFlows := f1
            allowedOAuthFlowsUserPoolClient := u.allowedOAuthFlowsUserPoolClient
            allowedOAuthScopes := f3
            analyticsConfiguration := u.analyticsConfiguration.map analyticsConfigurationFromSDK
            callbackURLs := f5
            clientName := u.clientName
            defaultRedirectURI := u.defaultRedirectURI
            enableTokenRevocation := u.enableTokenRevocation
            explicitAuthFlows := f12
            generateSecret := none
            idTokenValidity := u.idTokenValidity
            logoutURLs := f15
            preventUserExistenceErrors := u.preventUserExistenceErrors
            readAttributes := f17
            refreshTokenValidity := u.refreshTokenValidity
            supportedIdentityProviders := f19
            tokenValidityUnits := u.tokenValidityUnits.map tokenValidityUnitsFromSDK
            writeAttributes := f22 } }
        status := { atProvider :=
          { clientID := u.clientId
            clientSecret := u.clientSecret
            creationDate := u.creationDate
            lastModifiedDate := u.lastModifiedDate
            userPoolID := u.userPoolId } } }

/-- GenerateCreateUserPoolClientInput: copies every present
Spec.ForProvider field into an initially-empty create request; absent fields
are left unset; the eight string-slice fields are element-copied (a nil
element panics, modelled by none). -/
def GenerateCreateUserPoolClientInput (cr : UserPoolClient) :
    Option CreateUserPoolClientInput :=
  (copyOptSlice cr.spec.forProvider.allowedOAuthFlows).bind fun f1 =>
  (copyOptSlice cr.spec.forProvider.allowedOAuthScopes).bind fun f3 =>
  (copyOptSlice cr.spec.forProvider.callbackURLs).bind fun f5 =>
  (copyOptSlice cr.spec.forProvider.explicitAuthFlows).bind fun f9 =>
  (copyOptSlice cr.spec.forProvider.logoutURLs).bind fun f12 =>
  (copyOptSlice cr.spec.forProvider.readAttributes).bind fun f14 =>
  (copyOptSlice cr.spec.forProvider.supportedIdentityProviders).bind fun f16 =>
  (copyOptSlice cr.spec.forProvider.writeAttributes).bind fun f18 =>
  some
    { accessTokenValidity := cr.spec.forProvider.accessTokenValidity
      allowedOAuthFlows := f1
      allowedOAuthFlowsUserPoolClient := cr.spec.forProvider.allowedOAuthFlowsUserPoolClient
      allowedOAuthScopes := f3
      analyticsConfiguration := cr.spec.forProvider.analyticsConfiguration.map analyticsConfigurationToSDK
      callbackURLs := f5
      clientName := cr.spec.forProvider.clientName
      defaultRedirectURI := cr.spec.forProvider.defaultRedirectURI
      enableTokenRevocation := cr.spec.forProvider.enableTokenRevocation
      explicitAuthFlows := f9
      generateSecret := cr.spec.forProvider.generateSecret
      idTokenValidity := cr.spec.forProvider.idTokenValidity
      logoutURLs := f12
      preventUserExistenceErrors := cr.spec.forProvider.preventUserExistenceErrors
      readAttributes := f14
      refreshTokenValidity := cr.spec.forProvider.refreshTokenValidity
      supportedIdentityProviders := f16
      tokenValidityUnits := cr.spec.forProvider.tokenValidityUnits.map tokenValidityUnitsToSDK
      writeAttributes := f18 }

/-- GenerateUpdateUserPoolClientInput: same copy policy as the create input
for the Spec.ForProvider fields (GenerateSecret has no update counterpart),
plus the ClientId and UserPoolId identity fields taken from
Status.AtProvider. -/
def GenerateUpdateUserPoolClientInput (cr : UserPoolClient) :
    Option UpdateUserPoolClientInput :=
  (copyOptSlice cr.spec.forProvider.allowedOAuthFlows).bind fun f1 =>
  (copyOptSlice cr.spec.forProvider.allowedOAuthScopes).bind fun f3 =>
  (copyOptSlice cr.spec.forProvider.callbackURLs).bind fun f5 =>
  (copyOptSlice cr.spec.forProvider.explicitAuthFlows).bind fun f10 =>
  (copyOptSlice cr.spec.forProvider.logoutURLs).bind fun f12 =>
  (copyOptSlice cr.spec.forProvider.readAttributes).bind fun f14 =>
  (copyOptSlice cr.spec.forProvider.supportedIdentityProviders).bind fun f16 =>
  (copyOptSlice cr.spec.forProvider.writeAttributes).bind fun f19 =>
  some
    { accessTokenValidity := cr.spec.forProvider.accessTokenValidity
      allowedOAuthFlows := f1
      allowedOAuthFlowsUserPoolClient := cr.spec.forProvider.allowedOAuthFlowsUserPoolClient
      allowedOAuthScopes := f3
      analyticsConfiguration := cr.spec.forProvider.analyticsConfiguration.map analyticsConfigurationToSDK
      callbackURLs := f5
      clientId := cr.status.atProvider.clientID
      clientName := cr.spec.forProvider.clientName
      defaultRedirectURI := cr.spec.forProvider.defaultRedirectURI
      enableTokenRevocation := cr.spec.forProvider.enableTokenRevocation
      explicitAuthFlows := f10
      idTokenValidity := cr.spec.forProvider.idTokenValidity
      logoutURLs := f12
      preventUserExistenceErrors := cr.spec.forProvider.preventUserExistenceErrors
      readAttributes := f14
      refreshTokenValidity := cr.spec.forProvider.refreshTokenValidity
      supportedIdentityProviders := f16
      tokenValidityUnits := cr.spec.forProvider.tokenValidityUnits.map tokenValidityUnitsToSDK
      userPoolId := cr.status.atProvider.userPoolID
      writeAttributes := f19 }

/-- A Go error value as seen by IsNotFound: either it implements the
awserr.Error interface (carrying a code and a message) or it is some other
error (carrying only a message). -/
inductive GoError where
  | awsError (code message : String)
  | genericError (message : String)
  deriving DecidableEq

/-- IsNotFound: a type assertion to awserr.Error followed by a comparison of
the error code against "ResourceNotFoundException". -/
def IsNotFound : GoError → Bool
  | .awsError code _ => code == "ResourceNotFoundException"
  | .genericError _ => false

/- Characterisations of the generated conversions. -/

/-- copyStrSlice succeeds exactly when every element is non-nil, and then
reproduces the slice unchanged. -/
theorem copyStrSlice_eq (l : List (Option String)) :
    copyStrSlice l = if (l.all fun x => x.isSome) = true then some l else none := by
  induction l with
  | nil => rfl
  | cons x rest ih =>
    cases x with
    | none => simp [copyStrSlice]
    | some s =>
      by_cases h : (rest.all fun x => x.isSome) = true
      · simp [copyStrSlice, ih, h]
      · simp [copyStrSlice, ih, h]

/-- The guarded slice copy succeeds exactly when every element pointer is
non-nil, and then reproduces the possibly-nil slice unchanged. -/
theorem copyOptSlice_eq (o : Option (List (Option String))) :
    copyOptSlice o = if allSomeB o = true then some o else none := by
  cases o with
  | none => rfl
  | some l =>
    by_cases h : (l.all fun x => x.isSome) = true
    · simp [copyOptSlice, copyStrSlice_eq, allSomeB, h]
    · simp [copyOptSlice, copyStrSlice_eq, allSomeB, h]

/-- Binding a guarded value: it yields some r exactly when the guard holds
and the continuation yields some r. -/
theorem bind_guard_eq_some {α β : Type} (c : Prop) [Decidable c] (a : α)
    (k : α → Option β) (r : β) :
    (if c then some a else none).bind k = some r ↔ c ∧ k a = some r := by
  by_cases h : c <;> simp [h]

/-- isSome of a bound guarded value. -/
theorem bind_guard_isSome {α β : Type} (c : Prop) [Decidable c] (a : α)
    (k : α → Option β) :
    ((if c then some a else none).bind k).isSome = (decide c && (k a).isSome) := by
  by_cases h : c <;> simp [h]

/-- The api-to-SDK-to-api round trip on AnalyticsConfiguration is the
identity. -/
theorem analyticsConfiguration_roundtrip (a : AnalyticsConfigurationType) :
    analyticsConfigurationFromSDK (analyticsConfigurationToSDK a) = a := rfl

/-- The api-to-SDK-to-api round trip on TokenValidityUnits is the
identity. -/
theorem tokenValidityUnits_roundtrip (u : TokenValidityUnitsType) :
    tokenValidityUnitsFromSDK (tokenValidityUnitsToSDK u) = u := rfl

/-- All eight string-slice fields of the desired spec have non-nil element
pointers (the panic-freedom precondition of the create/update input
generators), in the order the generators traverse them. -/
def WellFormedParams (p : UserPoolClientParameters) : Prop :=
  allSomeB p.allowedOAuthFlows = true ∧ allSomeB p.allowedOAuthScopes = true ∧
  allSomeB p.callbackURLs = true ∧ allSomeB p.explicitAuthFlows = true ∧
  allSomeB p.logoutURLs = true ∧ allSomeB p.readAttributes = true ∧
  allSomeB p.supportedIdentityProviders = true ∧ allSomeB p.writeAttributes = true

/-- All eight string-slice fields of a describe-response member have non-nil
element pointers (the panic-freedom precondition of GenerateUserPoolClient),
in the order the converter traverses them. -/
def WellFormedType (u : UserPoolClientType) : Prop :=
  allSomeB u.allowedOAuthFlows = true ∧ allSomeB u.allowedOAuthScopes = true ∧
  allSomeB u.callbackURLs = true ∧ allSomeB u.explicitAuthFlows = true ∧
  allSomeB u.logoutURLs = true ∧ allSomeB u.readAttributes = true ∧
  allSomeB u.supportedIdentityProviders = true ∧ allSomeB u.writeAttributes = true

/-- The record GenerateUserPoolClient produces on success, written out
field by field. -/
def userPoolClientOfType (u : UserPoolClientType) : UserPoolClient :=
  { spec := { forProvider :=
      { accessTokenValidity := u.accessTokenValidity
        allowedOAuthFlows := u.allowedOAuthFlows
        allowedOAuthFlowsUserPoolClient := u.allowedOAuthFlowsUserPoolClient
        allowedOAuthScopes := u.allowedOAuthScopes
        analyticsConfiguration := u.analyticsConfiguration.map analyticsConfigurationFromSDK
        callbackURLs := u.callbackURLs
        clientName := u.clientName
        defaultRedirectURI := u.defaultRedirectURI
        enableTokenRevocation := u.enableTokenRevocation
        explicitAuthFlows := u.explicitAuthFlows
        generateSecret := none
        idTokenValidity := u.idTokenValidity
        logoutURLs := u.logoutURLs
        preventUserExistenceErrors := u.preventUserExistenceErrors
        readAttributes := u.readAttributes
        refreshTokenValidity := u.refreshTokenValidity
        supportedIdentityProviders := u.supportedIdentityProviders
        tokenValidityUnits := u.tokenValidityUnits.map tokenValidityUnitsFromSDK
        writeAttributes := u.writeAttributes } }
    status := { atProvider :=
      { clientID := u.clientId
        clientSecret := u.clientSecret
        creationDate := u.creationDate
        lastModifiedDate := u.lastModifiedDate
        userPoolID := u.userPoolId } } }

/-- The create request GenerateCreateUserPoolClientInput produces on
success, written out field by field. -/
def createInputOfClient (cr : UserPoolClient) : CreateUserPoolClientInput :=
  { accessTokenValidity := cr.spec.forProvider.accessTokenValidity
    allowedOAuthFlows := cr.spec.forProvider.allowedOAuthFlows
    allowedOAuthFlowsUserPoolClient := cr.spec.forProvider.allowedOAuthFlowsUserPoolClient
    allowedOAuthScopes := cr.spec.forProvider.allowedOAuthScopes
    analyticsConfiguration := cr.spec.forProvider.analyticsConfiguration.map analyticsConfigurationToSDK
    callbackURLs := cr.spec.forProvider.callbackURLs
    clientName := cr.spec.forProvider.clientName
    defaultRedirectURI := cr.spec.forProvider.defaultRedirectURI
    enableTokenRevocation := cr.spec.forProvider.enableTokenRevocation
    explicitAuthFlows := cr.spec.forProvider.explicitAuthFlows
    generateSecret := cr.spec.forProvider.generateSecret
    idTokenValidity := cr.spec.forProvider.idTokenValidity
    logoutURLs := cr.spec.forProvider.logoutURLs
    preventUserExistenceErrors := cr.spec.forProvider.preventUserExistenceErrors
    readAttributes := cr.spec.forProvider.readAttributes
    refreshTokenValidity := cr.spec.forProvider.refreshTokenValidity
    supportedIdentityProviders := cr.spec.forProvider.supportedIdentityProviders
    tokenValidityUnits := cr.spec.forProvider.tokenValidityUnits.map tokenValidityUnitsToSDK
    writeAttributes := cr.spec.forProvider.writeAttributes }

/-- The update request GenerateUpdateUserPoolClientInput produces on
success, written out field by field. -/
def updateInputOfClient (cr : UserPoolClient) : UpdateUserPoolClientInput :=
  { accessTokenValidity := cr.spec.forProvider.accessTokenValidity
    allowedOAuthFlows := cr.spec.forProvider.allowedOAuthFlows
    allowedOAuthFlowsUserPoolClient := cr.spec.forProvider.allowedOAuthFlowsUserPoolClient
    allowedOAuthScopes := cr.spec.forProvider.allowedOAuthScopes
    analyticsConfiguration := cr.spec.forProvider.analyticsConfiguration.map analyticsConfigurationToSDK
    callbackURLs := cr.spec.forProvider.callbackURLs
    clientId := cr.status.atProvider.clientID
    clientName := cr.spec.forProvider.clientName
    defaultRedirectURI := cr.spec.forProvider.defaultRedirectURI
    enableTokenRevocation := cr.spec.forProvider.enableTokenRevocation
    explicitAuthFlows := cr.spec.forProvider.explicitAuthFlows
    idTokenValidity := cr.spec.forProvider.idTokenValidity
    logoutURLs := cr.spec.forProvider.logoutURLs
    preventUserExistenceErrors := cr.spec.forProvider.preventUserExistenceErrors
    readAttributes := cr.spec.forProvider.readAttributes
    refreshTokenValidity := cr.spec.forProvider.refreshTokenValidity
    supportedIdentityProviders := cr.spec.forProvider.supportedIdentityProviders
    tokenValidityUnits := cr.spec.forProvider.tokenValidityUnits.map tokenValidityUnitsToSDK
    userPoolId := cr.status.atProvider.userPoolID
    writeAttributes := cr.spec.forProvider.writeAttributes }

/-- GenerateUserPoolClient succeeds exactly on well-formed response members,
and then produces userPoolClientOfType. -/
theorem generateUserPoolClient_eq_some_iff (u : UserPoolClientType) (cr : UserPoolClient) :
    GenerateUserPoolClient { userPoolClient := some u } = some cr ↔
      WellFormedType u ∧ cr = userPoolClientOfType u := by
  simp only [GenerateUserPoolClient, copyOptSlice_eq, bind_guard_eq_some, Option.some.injEq,
    WellFormedType, userPoolClientOfType]
  constructor
  · rintro ⟨h1, h2, h3, h4, h5, h6, h7, h8, h9⟩
    exact ⟨⟨h1, h2, h3, h4, h5, h6, h7, h8⟩, h9.symm⟩
  · rintro ⟨⟨h1, h2, h3, h4, h5, h6, h7, h8⟩, h9⟩
    exact ⟨h1, h2, h3, h4, h5, h6, h7, h8, h9.symm⟩

/-- GenerateCreateUserPoolClientInput succeeds exactly on well-formed
desired specs, and then produces createInputOfClient. -/
theorem generateCreateInput_eq_some_iff (cr : UserPoolClient) (req : CreateUserPoolClientInput) :
    GenerateCreateUserPoolClientInput cr = some req ↔
      WellFormedParams cr.spec.forProvider ∧ req = createInputOfClient cr := by
  simp only [GenerateCreateUserPoolClientInput, copyOptSlice_eq, bind_guard_eq_some,
    Option.some.injEq, WellFormedParams, createInputOfClient]
  constructor
  · rintro ⟨h1, h2, h3, h4, h5, h6, h7, h8, h9⟩
    exact ⟨⟨h1, h2, h3, h4, h5, h6, h7, h8⟩, h9.symm⟩
  · rintro ⟨⟨h1, h2, h3, h4, h5, h6, h7, h8⟩, h9⟩
    exact ⟨h1, h2, h3, h4, h5, h6, h7, h8, h9.symm⟩

/-- GenerateUpdateUserPoolClientInput succeeds exactly on well-formed
desired specs, and then produces updateInputOfClient. -/
theorem generateUpdateInput_eq_some_iff (cr : UserPoolClient) (req : UpdateUserPoolClientInput) :
    GenerateUpdateUserPoolClientInput cr = some req ↔
      WellFormedParams cr.spec.forProvider ∧ req = updateInputOfClient cr := by
  simp only [GenerateUpdateUserPoolClientInput, copyOptSlice_eq, bind_guard_eq_some,
    Option.some.injEq, WellFormedParams, updateInputOfClient]
  constructor
  · rintro ⟨h1, h2, h3, h4, h5, h6, h7, h8, h9⟩
    exact ⟨⟨h1, h2, h3, h4, h5, h6, h7, h8⟩, h9.symm⟩
  · rintro ⟨⟨h1, h2, h3, h4, h5, h6, h7, h8⟩, h9⟩
    exact ⟨h1, h2, h3, h4, h5, h6, h7, h8, h9.symm⟩

/- Sample values for the conversion claims. -/

def emptyUserPoolClientParameters : UserPoolClientParameters :=
  { accessTokenValidity := none, allowedOAuthFlows := none
    allowedOAuthFlowsUserPoolClient := none, allowedOAuthScopes := none
    analyticsConfiguration := none, callbackURLs := none, clientName := none
    defaultRedirectURI := none, enableTokenRevocation := none
    explicitAuthFlows := none, generateSecret := none, idTokenValidity := none
    logoutURLs := none, preventUserExistenceErrors := none, readAttributes := none
    refreshTokenValidity := none, supportedIdentityProviders := none
    tokenValidityUnits := none, writeAttributes := none }

def emptyObservation : UserPoolClientObservation :=
  { clientID := none, clientSecret := none, creationDate := none
    lastModifiedDate := none, userPoolID := none }

def sampleObservation : UserPoolClientObservation :=
  { clientID := some "client-123", clientSecret := none, creationDate := none
    lastModifiedDate := none, userPoolID := some "pool-9" }

/-- Sample record A: some desired spec, observed identity present. -/
def sampleClientA : UserPoolClient :=
  { spec := { forProvider :=
      { emptyUserPoolClientParameters with
        clientName := some "app-a"
        allowedOAuthFlows := some [some "code"] } }
    status := { atProvider := sampleObservation } }

/-- Sample record B: a different desired spec but the same observed
status as sample record A. -/
def sampleClientB : UserPoolClient :=
  { spec := { forProvider :=
      { emptyUserPoolClientParameters with
        clientName := some "app-b"
        generateSecret := some true
        refreshTokenValidity := some 30 } }
    status := { atProvider := sampleObservation } }

def emptyUserPoolClientType : UserPoolClientType :=
  { accessTokenValidity := none, allowedOAuthFlows := none
    allowedOAuthFlowsUserPoolClient := none, allowedOAuthScopes := none
    analyticsConfiguration := none, callbackURLs := none, clientId := none
    clientName := none, clientSecret := none, creationDate := none
    defaultRedirectURI := none, enableTokenRevocation := none
    explicitAuthFlows := none, idTokenValidity := none, lastModifiedDate := none
    logoutURLs := none, preventUserExistenceErrors := none, readAttributes := none
    refreshTokenValidity := none, supportedIdentityProviders := none
    tokenValidityUnits := none, userPoolId := none, writeAttributes := none }

/-- A sample describe-response member mixing present and absent fields. -/
def sampleResponseType : UserPoolClientType :=
  { emptyUserPoolClientType with
    accessTokenValidity := some 60
    allowedOAuthFlows := some [some "code", some "implicit"]
    clientId := some "client-123"
    clientName := some "app"
    clientSecret := some "shh"
    creationDate := some 1700000000
    refreshTokenValidity := some 30
    userPoolId := some "pool-9" }

/-- A response member with a nil element pointer inside AllowedOAuthFlows:
the unguarded dereference in GenerateUserPoolClient panics on it. -/
def samplePanicType : UserPoolClientType :=
  { emptyUserPoolClientType with allowedOAuthFlows := some [none] }

/-- C8: IsNotFound returns true if and only if the error is a provider
(awserr) error whose code equals "ResourceNotFoundException"; the result
depends only on the code, never on the message text, and every non-provider
error yields false. -/
theorem C8_is_not_found_code_only (e : GoError) :
    (IsNotFound e = true ↔ ∃ msg, e = .awsError "ResourceNotFoundException" msg)
    ∧ (∀ c m m', IsNotFound (.awsError c m) = IsNotFound (.awsError c m'))
    ∧ (∀ m, IsNotFound (.genericError m) = false) := by
  refine ⟨?_, fun c m m' => rfl, fun m => rfl⟩
  cases e with
  | awsError c m =>
    simp only [IsNotFound, beq_iff_eq, GoError.awsError.injEq]
    constructor
    · intro h
      exact ⟨m, h, rfl⟩
    · rintro ⟨msg, h, -⟩
      exact h
  | genericError m =>
    simp [IsNotFound]

/-- Witness for C8: an error whose message looks like not-found but whose
code differs is not classified as not-found, while the designated code is,
whatever its message. -/
theorem C8_is_not_found_code_only_witness :
    IsNotFound (.awsError "ThrottlingException" "ResourceNotFoundException: no such client") =
      IsNotFound (.awsError "ThrottlingException" "other text") :=
  (C8_is_not_found_code_only (.awsError "ThrottlingException" "x")).2.1
    "ThrottlingException" "ResourceNotFoundException: no such client" "other text"

/-- C9: the describe and delete requests are functions of the observed
status only: two records with equal Status.AtProvider yield identical
describe and delete inputs, whatever their desired specs. -/
theorem C9_read_requests_from_observed_identity (cr1 cr2 : UserPoolClient)
    (h : cr1.status = cr2.status) :
    GenerateDescribeUserPoolClientInput cr1 = GenerateDescribeUserPoolClientInput cr2
    ∧ GenerateDeleteUserPoolClientInput cr1 = GenerateDeleteUserPoolClientInput cr2 := by
  constructor <;>
    simp [GenerateDescribeUserPoolClientInput, GenerateDeleteUserPoolClientInput, h]

/-- Witness for C9: the two sample records differ in desired spec but share
observed status, and get identical describe and delete inputs. -/
theorem C9_read_requests_from_observed_identity_witness :
    GenerateDescribeUserPoolClientInput sampleClientA = GenerateDescribeUserPoolClientInput sampleClientB
    ∧ GenerateDeleteUserPoolClientInput sampleClientA = GenerateDeleteUserPoolClientInput sampleClientB :=
  C9_read_requests_from_observed_identity sampleClientA sampleClientB rfl

/-- C10: GenerateUserPoolClient is total exactly under the precondition that
the response member is non-nil and every element pointer of its eight
string-slice fields is non-nil: a nil member is dereferenced unguarded, and
each slice element is dereferenced unguarded by the copy loops (both panics,
modelled as none). -/
theorem C10_generate_user_pool_client_totality (resp : DescribeUserPoolClientOutput) :
    (resp.userPoolClient = none → GenerateUserPoolClient resp = none)
    ∧ ∀ u, resp.userPoolClient = some u →
        ((GenerateUserPoolClient resp).isSome = true ↔
          (allSomeB u.allowedOAuthFlows = true ∧ allSomeB u.allowedOAuthScopes = true ∧
           allSomeB u.callbackURLs = true ∧ allSomeB u.explicitAuthFlows = true ∧
           allSomeB u.logoutURLs = true ∧ allSomeB u.readAttributes = true ∧
           allSomeB u.supportedIdentityProviders = true ∧ allSomeB u.writeAttributes = true)) := by
  obtain ⟨upc⟩ := resp
  constructor
  · intro h
    replace h : upc = none := h
    subst h
    rfl
  · intro u hu
    replace hu : upc = some u := hu
    subst hu
    simp only [GenerateUserPoolClient, copyOptSlice_eq, bind_guard_isSome, Option.isSome_some,
      Bool.and_true, Bool.and_eq_true, decide_eq_true_eq]

/-- Witness for C10: a response member carrying a nil element pointer in
AllowedOAuthFlows makes GenerateUserPoolClient panic (none). -/
theorem C10_generate_user_pool_client_totality_witness :
    (GenerateUserPoolClient { userPoolClient := some samplePanicType }).isSome = true ↔
      (allSomeB samplePanicType.allowedOAuthFlows = true ∧
       allSomeB samplePanicType.allowedOAuthScopes = true ∧
       allSomeB samplePanicType.callbackURLs = true ∧
       allSomeB samplePanicType.explicitAuthFlows = true ∧
       allSomeB samplePanicType.logoutURLs = true ∧
       allSomeB samplePanicType.readAttributes = true ∧
       allSomeB samplePanicType.supportedIdentityProviders = true ∧
       allSomeB samplePanicType.writeAttributes = true) :=
  (C10_generate_user_pool_client_totality { userPoolClient := some samplePanicType }).2
    samplePanicType rfl

/-- C3: GenerateUserPoolClient writes each user-settable response field into
Spec.ForProvider and each server-assigned field (ClientId, ClientSecret,
CreationDate, LastModifiedDate, UserPoolId) into Status.AtProvider, each
with its exact response value (nested structs converted field by field,
slices element-copied), and every absent response field is written as
absent, never coerced to a zero value (Option.map sends none to none). -/
theorem C3_response_field_split (resp : DescribeUserPoolClientOutput)
    (u : UserPoolClientType) (cr : UserPoolClient)
    (hu : resp.userPoolClient = some u)
    (h : GenerateUserPoolClient resp = some cr) :
    cr.spec.forProvider.accessTokenValidity = u.accessTokenValidity
    ∧ cr.spec.forProvider.allowedOAuthFlows = u.allowedOAuthFlows
    ∧ cr.spec.forProvider.allowedOAuthFlowsUserPoolClient = u.allowedOAuthFlowsUserPoolClient
    ∧ cr.spec.forProvider.allowedOAuthScopes = u.allowedOAuthScopes
    ∧ cr.spec.forProvider.analyticsConfiguration
        = u.analyticsConfiguration.map analyticsConfigurationFromSDK
    ∧ cr.spec.forProvider.callbackURLs = u.callbackURLs
    ∧ cr.spec.forProvider.clientName = u.clientName
    ∧ cr.spec.forProvider.defaultRedirectURI = u.defaultRedirectURI
    ∧ cr.spec.forProvider.enableTokenRevocation = u.enableTokenRevocation
    ∧ cr.spec.forProvider.explicitAuthFlows = u.explicitAuthFlows
    ∧ cr.spec.forProvider.idTokenValidity = u.idTokenValidity
    ∧ cr.spec.forProvider.logoutURLs = u.logoutURLs
    ∧ cr.spec.forProvider.preventUserExistenceErrors = u.preventUserExistenceErrors
    ∧ cr.spec.forProvider.readAttributes = u.readAttributes
    ∧ cr.spec.forProvider.refreshTokenValidity = u.refreshTokenValidity
    ∧ cr.spec.forProvider.supportedIdentityProviders = u.supportedIdentityProviders
    ∧ cr.spec.forProvider.tokenValidityUnits
        = u.tokenValidityUnits.map tokenValidityUnitsFromSDK
    ∧ cr.spec.forProvider.writeAttributes = u.writeAttributes
    ∧ cr.status.atProvider.clientID = u.clientId
    ∧ cr.status.atProvider.clientSecret = u.clientSecret
    ∧ cr.status.atProvider.creationDate = u.creationDate
    ∧ cr.status.atProvider.lastModifiedDate = u.lastModifiedDate
    ∧ cr.status.atProvider.userPoolID = u.userPoolId := by
  obtain ⟨upc⟩ := resp
  replace hu : upc = some u := hu
  subst hu
  rw [generateUserPoolClient_eq_some_iff] at h
  obtain ⟨-, rfl⟩ := h
  exact ⟨rfl, rfl, rfl, rfl, rfl, rfl, rfl, rfl, rfl, rfl, rfl, rfl, rfl, rfl, rfl,
    rfl, rfl, rfl, rfl, rfl, rfl, rfl, rfl⟩

/-- Witness for C3 at the sample response. -/
theorem C3_response_field_split_witness :
    (userPoolClientOfType sampleResponseType).spec.forProvider.accessTokenValidity =
      sampleResponseType.accessTokenValidity :=
  (C3_response_field_split { userPoolClient := some sampleResponseType }
    sampleResponseType (userPoolClientOfType sampleResponseType) rfl (by decide)).1

/-- C4: in the create and update requests, each optional field whose
counterpart exists in the desired spec is set if and only if that spec field
is present, and then carries exactly its value (absent fields stay unset in
the request): every request field equals the corresponding desired-spec
field, nested structs converted field by field (Option.map preserves
presence and absence). -/
theorem C4_request_field_presence (cr : UserPoolClient) :
    (∀ req, GenerateCreateUserPoolClientInput cr = some req →
      req.accessTokenValidity = cr.spec.forProvider.accessTokenValidity
      ∧ req.allowedOAuthFlows = cr.spec.forProvider.allowedOAuthFlows
      ∧ req.allowedOAuthFlowsUserPoolClient = cr.spec.forProvider.allowedOAuthFlowsUserPoolClient
      ∧ req.allowedOAuthScopes = cr.spec.forProvider.allowedOAuthScopes
      ∧ req.analyticsConfiguration
          = cr.spec.forProvider.analyticsConfiguration.map analyticsConfigurationToSDK
      ∧ req.callbackURLs = cr.spec.forProvider.callbackURLs
      ∧ req.clientName = cr.spec.forProvider.clientName
      ∧ req.defaultRedirectURI = cr.spec.forProvider.defaultRedirectURI
      ∧ req.enableTokenRevocation = cr.spec.forProvider.enableTokenRevocation
      ∧ req.explicitAuthFlows = cr.spec.forProvider.explicitAuthFlows
      ∧ req.generateSecret = cr.spec.forProvider.generateSecret
      ∧ req.idTokenValidity = cr.spec.forProvider.idTokenValidity
      ∧ req.logoutURLs = cr.spec.forProvider.logoutURLs
      ∧ req.preventUserExistenceErrors = cr.spec.forProvider.preventUserExistenceErrors
      ∧ req.readAttributes = cr.spec.forProvider.readAttributes
      ∧ req.refreshTokenValidity = cr.spec.forProvider.refreshTokenValidity
      ∧ req.supportedIdentityProviders = cr.spec.forProvider.supportedIdentityProviders
      ∧ req.tokenValidityUnits
          = cr.spec.forProvider.tokenValidityUnits.map tokenValidityUnitsToSDK
      ∧ req.writeAttributes = cr.spec.forProvider.writeAttributes)
    ∧ (∀ req, GenerateUpdateUserPoolClientInput cr = some req →
      req.accessTokenValidity = cr.spec.forProvider.accessTokenValidity
      ∧ req.allowedOAuthFlows = cr.spec.forProvider.allowedOAuthFlows
      ∧ req.allowedOAuthFlowsUserPoolClient = cr.spec.forProvider.allowedOAuthFlowsUserPoolClient
      ∧ req.allowedOAuthScopes = cr.spec.forProvider.allowedOAuthScopes
      ∧ req.analyticsConfiguration
          = cr.spec.forProvider.analyticsConfiguration.map analyticsConfigurationToSDK
      ∧ req.callbackURLs = cr.spec.forProvider.callbackURLs
      ∧ req.clientName = cr.spec.forProvider.clientName
      ∧ req.defaultRedirectURI = cr.spec.forProvider.defaultRedirectURI
      ∧ req.enableTokenRevocation = cr.spec.forProvider.enableTokenRevocation
      ∧ req.explicitAuthFlows = cr.spec.forProvider.explicitAuthFlows
      ∧ req.idTokenValidity = cr.spec.forProvider.idTokenValidity
      ∧ req.logoutURLs = cr.spec.forProvider.logoutURLs
      ∧ req.preventUserExistenceErrors = cr.spec.forProvider.preventUserExistenceErrors
      ∧ req.readAttributes = cr.spec.forProvider.readAttributes
      ∧ req.refreshTokenValidity = cr.spec.forProvider.refreshTokenValidity
      ∧ req.supportedIdentityProviders = cr.spec.forProvider.supportedIdentityProviders
      ∧ req.tokenValidityUnits
          = cr.spec.forProvider.tokenValidityUnits.map tokenValidityUnitsToSDK
      ∧ req.writeAttributes = cr.spec.forProvider.writeAttributes) := by
  constructor
  · intro req h
    rw [generateCreateInput_eq_some_iff] at h
    obtain ⟨-, rfl⟩ := h
    exact ⟨rfl, rfl, rfl, rfl, rfl, rfl, rfl, rfl, rfl, rfl, rfl, rfl, rfl, rfl,
      rfl, rfl, rfl, rfl, rfl⟩
  · intro req h
    rw [generateUpdateInput_eq_some_iff] at h
    obtain ⟨-, rfl⟩ := h
    exact ⟨rfl, rfl, rfl, rfl, rfl, rfl, rfl, rfl, rfl, rfl, rfl, rfl, rfl, rfl,
      rfl, rfl, rfl, rfl⟩

/-- Witness for C4 at sample record B (whose GenerateSecret is present). -/
theorem C4_request_field_presence_witness :
    (createInputOfClient sampleClientB).accessTokenValidity =
      sampleClientB.spec.forProvider.accessTokenValidity :=
  ((C4_request_field_presence sampleClientB).1
    (createInputOfClient sampleClientB) (by decide)).1

/-- Follows the spec's words: the describe response "equivalent" to a create
request carries each create-request field in its correspondingly named
response slot, with the server-assigned fields (ClientId, ClientSecret,
CreationDate, LastModifiedDate, UserPoolId) absent.  The response shape has
no GenerateSecret member, so that create-only field has no slot here. -/
def toEquivalentDescribeOutput (req : CreateUserPoolClientInput) :
    DescribeUserPoolClientOutput :=
  { userPoolClient := some
      { accessTokenValidity := req.accessTokenValidity
        allowedOAuthFlows := req.allowedOAuthFlows
        allowedOAuthFlowsUserPoolClient := req.allowedOAuthFlowsUserPoolClient
        allowedOAuthScopes := req.allowedOAuthScopes
        analyticsConfiguration := req.analyticsConfiguration
        callbackURLs := req.callbackURLs
        clientId := none
        clientName := req.clientName
        clientSecret := none
        creationDate := none
        defaultRedirectURI := req.defaultRedirectURI
        enableTokenRevocation := req.enableTokenRevocation
        explicitAuthFlows := req.explicitAuthFlows
        idTokenValidity := req.idTokenValidity
        lastModifiedDate := none
        logoutURLs := req.logoutURLs
        preventUserExistenceErrors := req.preventUserExistenceErrors
        readAttributes := req.readAttributes
        refreshTokenValidity := req.refreshTokenValidity
        supportedIdentityProviders := req.supportedIdentityProviders
        tokenValidityUnits := req.tokenValidityUnits
        userPoolId := none
        writeAttributes := req.writeAttributes } }

/-- A desired-state record whose only present field is GenerateSecret. -/
def generateSecretOnlyClient : UserPoolClient :=
  { spec := { forProvider :=
      { emptyUserPoolClientParameters with generateSecret := some true } }
    status := { atProvider := emptyObservation } }

/-- Counterexample to C2: a record with GenerateSecret present round-trips
through the create request and the equivalent describe response to a record
in which GenerateSecret is absent — the describe response shape has no
GenerateSecret member, so that originally-present field is not restored. -/
theorem C2_counterexample :
    ∃ req, GenerateCreateUserPoolClientInput generateSecretOnlyClient = some req
      ∧ ∃ cr2, GenerateUserPoolClient (toEquivalentDescribeOutput req) = some cr2
        ∧ generateSecretOnlyClient.spec.forProvider.generateSecret = some true
        ∧ cr2.spec.forProvider.generateSecret = none :=
  ⟨createInputOfClient generateSecretOnlyClient, by decide,
   userPoolClientOfType emptyUserPoolClientType, by decide, rfl, rfl⟩

/-- C2 (amended): the round trip through the create request and the
equivalent describe response restores every originally-present field with
exactly its original value and keeps every originally-absent field absent,
with the single exception of the create-only GenerateSecret field, which has
no slot in the describe response and is therefore always absent after the
round trip; the server-assigned status fields of the result are all
absent. -/
theorem C2_roundtrip_restores_all_but_generate_secret (cr : UserPoolClient)
    (req : CreateUserPoolClientInput)
    (h : GenerateCreateUserPoolClientInput cr = some req) :
    ∃ cr2, GenerateUserPoolClient (toEquivalentDescribeOutput req) = some cr2
      ∧ cr2.spec.forProvider = { cr.spec.forProvider with generateSecret := none }
      ∧ cr2.status.atProvider =
          { clientID := none, clientSecret := none, creationDate := none
            lastModifiedDate := none, userPoolID := none } := by
  obtain ⟨⟨p⟩, ⟨ob⟩⟩ := cr
  rw [generateCreateInput_eq_some_iff] at h
  obtain ⟨hwf, rfl⟩ := h
  refine ⟨_, (generateUserPoolClient_eq_some_iff _ _).mpr ⟨?_, rfl⟩, ?_, rfl⟩
  · exact hwf
  · obtain ⟨a1, aF, a3, aS, aA, aC, a7, a8, a9, aE, aG, a12, aL, a14, aR, a16, aP, aT, aW⟩ := p
    cases aA <;> cases aT <;> rfl

/-- Witness for the amended C2 at sample record A. -/
theorem C2_roundtrip_restores_all_but_generate_secret_witness :
    ∃ cr2, GenerateUserPoolClient
        (toEquivalentDescribeOutput (createInputOfClient sampleClientA)) = some cr2
      ∧ cr2.spec.forProvider =
          { sampleClientA.spec.forProvider with generateSecret := none }
      ∧ cr2.status.atProvider =
          { clientID := none, clientSecret := none, creationDate := none
            lastModifiedDate := none, userPoolID := none } :=
  C2_roundtrip_restores_all_but_generate_secret sampleClientA
    (createInputOfClient sampleClientA) (by decide)
